import Mathlib

/-!
Shallow embedding of the ssh-mcp-npx repository core:
the credential store (src/server-config.ts) and the SSH connection
manager (src/ssh-connection.ts).

Modelling conventions:
- A JS `Map` and a JS `Record` (plain object used as a dictionary) are
  embedded as insertion-ordered association lists with the operations
  the source uses: lookup, set (replace in place or append), delete.
  Both JS containers keep keys unique, which the recursive set/delete
  below preserve.
- Wall-clock time is a `Nat` of milliseconds supplied by an environment
  record; the asynchronous transport events (ready/error of the ssh2
  client, exec callback, stream close, timer firing) are resolved by
  environment fields describing which event arrives and when.
- Thrown JS errors become `Except` error values; the distinct
  `throw new Error(...)` sites of the source become distinct
  constructors.
-/

namespace SshMcp

/-- Lookup in an insertion-ordered association list, as `Map.get` /
`record[k]` in the source. -/
def mapGet {α : Type} : List (String × α) → String → Option α
  | [], _ => none
  | (k1, v1) :: rest, k => if k1 = k then some v1 else mapGet rest k

/-- `Map.set` / `record[k] = v`: replace the (unique) existing entry in
place, else append a new entry. -/
def mapSet {α : Type} : List (String × α) → String → α → List (String × α)
  | [], k, v => [(k, v)]
  | (k1, v1) :: rest, k, v =>
    if k1 = k then (k, v) :: rest else (k1, v1) :: mapSet rest k v

/-- `Map.delete` / `delete record[k]`: remove the (unique) entry with
the given key, if present. -/
def mapDelete {α : Type} : List (String × α) → String → List (String × α)
  | [], _ => []
  | (k1, v1) :: rest, k =>
    if k1 = k then rest else (k1, v1) :: mapDelete rest k

/-! ## Credential store data model (src/server-config.ts) -/

/-- Interface `SSHServerConfig` of src/server-config.ts. Optional JS
fields become `Option`. -/
structure SSHServerConfig where
  name : String
  host : String
  port : Nat
  username : String
  password : Option String
  key_path : Option String
  description : Option String
  proxy_command : Option String
  deriving Repr, DecidableEq

/-- Interface `ServerConfigData`: the persisted JSON document held in
memory by `ServerConfigManager`. -/
structure ServerConfigData where
  default_server : Option String
  servers : List (String × SSHServerConfig)
  deriving Repr, DecidableEq

/-- Argument record of `ServerConfigManager.addServer`: like
`SSHServerConfig` but with `port` optional (defaulted to 22). -/
structure AddServerInput where
  name : String
  host : String
  port : Option Nat
  username : String
  password : Option String
  key_path : Option String
  description : Option String
  proxy_command : Option String
  deriving Repr, DecidableEq

/-- The distinct `throw new Error(...)` outcomes of
`ServerConfigManager`. `persistence` stands for the error rethrown by
`saveConfig` when the file write fails. -/
inductive ConfigError where
  | duplicateServer (name : String)
  | serverNotFound (name : String)
  | persistence
  deriving Repr, DecidableEq

/-- The record built inside `addServer` before insertion:
`port: config.port || 22` maps a missing or falsy (zero) port to 22. -/
def mkServerConfig (c : AddServerInput) : SSHServerConfig :=
  { name := c.name
    host := c.host
    port := match c.port with
            | none => 22
            | some p => if p = 0 then 22 else p
    username := c.username
    password := c.password
    key_path := c.key_path
    description := c.description
    proxy_command := c.proxy_command }

/-- `ServerConfigManager.getServer`. -/
def getServer (st : ServerConfigData) (name : String) : Option SSHServerConfig :=
  mapGet st.servers name

/-- `ServerConfigManager.getDefaultServer`. -/
def getDefaultServer (st : ServerConfigData) : Option String :=
  st.default_server

/-- `ServerConfigManager.addServer`. The `saveOk` flag says whether the
`saveConfig` file write succeeds; the source mutates
`this.config.servers` first and `saveConfig` rethrows the write error,
so the mutated state survives a failed save. -/
def addServer (st : ServerConfigData) (c : AddServerInput) (saveOk : Bool) :
    Except ConfigError SSHServerConfig × ServerConfigData :=
  if (mapGet st.servers c.name).isSome then
    (.error (.duplicateServer c.name), st)
  else
    let serverConfig := mkServerConfig c
    let st1 : ServerConfigData :=
      { st with servers := mapSet st.servers c.name serverConfig }
    if saveOk then (.ok serverConfig, st1) else (.error .persistence, st1)

/-- `ServerConfigManager.deleteServer`: delete the entry, clear the
default pointer when it named the deleted entry, then save. -/
def deleteServer (st : ServerConfigData) (name : String) (saveOk : Bool) :
    Except ConfigError Bool × ServerConfigData :=
  if (mapGet st.servers name).isSome then
    let st1 : ServerConfigData :=
      { st with servers := mapDelete st.servers name }
    let st2 : ServerConfigData :=
      if st1.default_server = some name then
        { st1 with default_server := none }
      else st1
    if saveOk then (.ok true, st2) else (.error .persistence, st2)
  else
    (.error (.serverNotFound name), st)

/-- `ServerConfigManager.setDefaultServer`. -/
def setDefaultServer (st : ServerConfigData) (name : String) (saveOk : Bool) :
    Except ConfigError Bool × ServerConfigData :=
  if (mapGet st.servers name).isSome then
    let st1 : ServerConfigData := { st with default_server := some name }
    if saveOk then (.ok true, st1) else (.error .persistence, st1)
  else
    (.error (.serverNotFound name), st)

/-- The store reached when no config file exists: `{ servers: {} }`. -/
def emptyStore : ServerConfigData :=
  { default_server := none, servers := [] }

/-- One mutating store operation together with the fate of its
`saveConfig` write. -/
inductive StoreOp where
  | add (c : AddServerInput) (saveOk : Bool)
  | del (name : String) (saveOk : Bool)
  | setDef (name : String) (saveOk : Bool)
  deriving Repr, DecidableEq

/-- State transition of one store operation (result value discarded). -/
def applyOp (st : ServerConfigData) : StoreOp → ServerConfigData
  | .add c saveOk => (addServer st c saveOk).2
  | .del name saveOk => (deleteServer st name saveOk).2
  | .setDef name saveOk => (setDefaultServer st name saveOk).2

/-- State after a sequence of store operations. -/
def applyOps (st : ServerConfigData) (ops : List StoreOp) : ServerConfigData :=
  ops.foldl applyOp st

/-- The default-pointer invariant of the spec: when set, the pointer
names an existing credential. -/
def storeInv (st : ServerConfigData) : Prop :=
  ∀ n, st.default_server = some n → (mapGet st.servers n).isSome = true

/-! ## Connection manager data model (src/ssh-connection.ts) -/

/-- Interface `SSHConnection` without the opaque ssh2 `client` handle;
`connected_at` is a millisecond timestamp. -/
structure SSHConnection where
  id : String
  server_name : String
  connected : Bool
  connected_at : Nat
  deriving Repr, DecidableEq

/-- The private fields of `SSHConnectionManager`: the connection
registry (a JS `Map`) and the id counter. -/
structure ConnState where
  connections : List (String × SSHConnection)
  connectionCounter : Nat
  deriving Repr, DecidableEq

/-- The distinct failure outcomes of `SSHConnectionManager.connect`:
the two `throw new Error(...)` sites and rejection through the ssh2
client error event. -/
inductive ConnError where
  | noTarget
  | unknownServer (name : String)
  | connectionError
  deriving Repr, DecidableEq

/-- Environment of one connect attempt: `now` is `Date.now()` when the
attempt starts, `ready` says whether the ssh2 client fires `ready`
(authentication succeeds) rather than `error`. -/
structure ConnectEnv where
  now : Nat
  ready : Bool
  deriving Repr, DecidableEq

/-- JS falsiness of the values flowing through
`server_name || this.configManager.getDefaultServer()`:
`undefined` and the empty string are falsy. -/
def jsFalsy : Option String → Bool
  | none => true
  | some s => s = ""

/-- Target resolution of `connect`: `const name = server_name ||
getDefaultServer()` followed by the `if (!name)` guard. Returns `none`
exactly when the guard throws. -/
def resolveTarget (server_name default_server : Option String) : Option String :=
  let name := if jsFalsy server_name then default_server else server_name
  if jsFalsy name then none else name

/-- The reuse scan of `connect`: first registry entry whose
`server_name` matches and whose `connected` flag is true. -/
def findReusable (name : String) : List (String × SSHConnection) → Option SSHConnection
  | [] => none
  | (_, c) :: rest =>
    if c.server_name = name ∧ c.connected = true then some c
    else findReusable name rest

/-- The session built in the promise executor of `connect`:
`generateConnectionId` interpolates `Date.now()` and the counter, and
the `ready` handler flips `connected` to true before registering. -/
def freshConnection (name : String) (env : ConnectEnv) (st : ConnState) : SSHConnection :=
  { id := "conn_" ++ toString env.now ++ "_" ++ toString st.connectionCounter
    server_name := name
    connected := true
    connected_at := env.now }

/-- `SSHConnectionManager.connect`. Resolution, credential lookup and
the reuse scan mirror the source line by line; the promise branch is
resolved by `env.ready`. `generateConnectionId` runs synchronously in
the promise executor, so the counter advances even when the attempt
fails, while the registry is only written in the `ready` handler. -/
def connect (cfg : ServerConfigData) (server_name : Option String)
    (env : ConnectEnv) (st : ConnState) :
    Except ConnError SSHConnection × ConnState :=
  match resolveTarget server_name (getDefaultServer cfg) with
  | none => (.error .noTarget, st)
  | some name =>
    match getServer cfg name with
    | none => (.error (.unknownServer name), st)
    | some _config =>
      match findReusable name st.connections with
      | some conn => (.ok conn, st)
      | none =>
        let conn := freshConnection name env st
        let st1 : ConnState := { st with connectionCounter := st.connectionCounter + 1 }
        if env.ready then
          (.ok conn, { st1 with connections := mapSet st1.connections conn.id conn })
        else
          (.error .connectionError, st1)

/-- `SSHConnectionManager.disconnect`. Besides the `{disconnected}`
count and the new state, the middle component records the ids of the
sessions whose transport was terminated with `client.end()`. -/
def disconnect (st : ConnState) (connection_id : Option String) :
    Nat × List String × ConnState :=
  match connection_id with
  | some cid =>
    match mapGet st.connections cid with
    | some conn =>
      (1, [conn.id], { st with connections := mapDelete st.connections cid })
    | none => (0, [], st)
  | none =>
    (st.connections.length, st.connections.map (fun p => p.2.id),
      { st with connections := [] })

/-- One row of the `getStatus` report. -/
structure StatusEntry where
  id : String
  server_name : String
  connected : Bool
  connected_at : Nat
  deriving Repr, DecidableEq

/-- `SSHConnectionManager.getStatus`: the per-session rows and the
`total` count (`this.connections.size`). -/
def getStatus (st : ConnState) : List StatusEntry × Nat :=
  (st.connections.map (fun p =>
      { id := p.2.id
        server_name := p.2.server_name
        connected := p.2.connected
        connected_at := p.2.connected_at }),
    st.connections.length)

/-- `SSHConnectionManager.getConnection`. -/
def getConnection (st : ConnState) (server_name : String) : Option SSHConnection :=
  findReusable server_name st.connections

/-! ## Command execution (executeCommand) -/

/-- Interface `CommandResult`. `exit_code` is null when the close event
delivers no numeric code. -/
structure CommandResult where
  stdout : String
  stderr : String
  exit_code : Option Int
  duration : Nat
  deriving Repr, DecidableEq

/-- How one `executeCommand` promise settles. -/
inductive ExecOutcome where
  | connectFailed (e : ConnError)
  | execStartFailed
  | timedOut (seconds : Nat)
  | completed (r : CommandResult)
  | neverSettles
  deriving Repr, DecidableEq

/-- Environment of one `executeCommand` call: how long the connect step
took, whether the `exec` callback reported an error, when (in
milliseconds after the timer is armed) the stream close event fires and
with which code, and the stream chunks delivered before completion. -/
structure ExecEnv where
  connectEnv : ConnectEnv
  connectMs : Nat
  execErr : Bool
  closeAt : Option (Nat × Option Int)
  stdoutChunks : List String
  stderrChunks : List String
  deriving Repr, DecidableEq

/-- The `cleanup` closure of `executeCommand`:
`if (timer) clearTimeout(timer)`. -/
def cleanup : Option Nat → Option Nat
  | some _ => none
  | none => none

/-- Result of one `executeCommand` call: the settled outcome, the timer
resource left pending afterwards (always cleared by `cleanup` on every
settling path), and the manager state. -/
structure ExecFinal where
  outcome : ExecOutcome
  timerAfter : Option Nat
  state : ConnState
  deriving Repr, DecidableEq

/-- `SSHConnectionManager.executeCommand`. `callStart` is `Date.now()`
recorded as `startTime` on entry. The timer is armed, for
`timeout * 1000` milliseconds, only after `await this.connect(...)`
resolves; `env.closeAt` is measured from that arming instant. The
timeout wins when the close event does not arrive strictly before the
timer deadline. `duration` is `Date.now() - startTime` at resolution
time, i.e. connect time plus exec time. -/
def executeCommand (cfg : ServerConfigData) (server_name command : String)
    (env : ExecEnv) (st : ConnState) (callStart : Nat)
    (timeout : Nat := 30) : ExecFinal :=
  match connect cfg (some server_name) env.connectEnv st with
  | (.error e, st1) => { outcome := .connectFailed e, timerAfter := none, state := st1 }
  | (.ok _conn, st1) =>
    let timer : Option Nat := if 0 < timeout then some (timeout * 1000) else none
    if env.execErr then
      { outcome := .execStartFailed, timerAfter := cleanup timer, state := st1 }
    else
      match env.closeAt with
      | none =>
        if 0 < timeout then
          { outcome := .timedOut timeout, timerAfter := cleanup timer, state := st1 }
        else
          { outcome := .neverSettles, timerAfter := timer, state := st1 }
      | some (closeMs, code) =>
        if 0 < timeout ∧ timeout * 1000 ≤ closeMs then
          { outcome := .timedOut timeout, timerAfter := cleanup timer, state := st1 }
        else
          { outcome := .completed
              { stdout := env.stdoutChunks.foldl (fun a b => a ++ b) ""
                stderr := env.stderrChunks.foldl (fun a b => a ++ b) ""
                exit_code := code
                duration := callStart + env.connectMs + closeMs - callStart }
            timerAfter := cleanup timer
            state := st1 }

/-! ## Association-list lemmas -/

theorem mapGet_eq_none {α : Type} (l : List (String × α)) (k : String)
    (h : k ∉ l.map Prod.fst) : mapGet l k = none := by
  induction l with
  | nil => rfl
  | cons p rest ih =>
    obtain ⟨k1, v1⟩ := p
    simp only [List.map_cons, List.mem_cons] at h
    push_neg at h
    simp only [mapGet, if_neg (Ne.symm h.1)]
    exact ih h.2

theorem mapGet_mapSet {α : Type} (l : List (String × α)) (k n : String) (v : α) :
    mapGet (mapSet l k v) n = if n = k then some v else mapGet l n := by
  induction l with
  | nil =>
    by_cases h : n = k
    · simp [mapSet, mapGet, h]
    · simp [mapSet, mapGet, h, Ne.symm h]
  | cons p rest ih =>
    obtain ⟨k1, v1⟩ := p
    by_cases h1 : k1 = k
    · by_cases h2 : n = k
      · simp [mapSet, mapGet, h1, h2]
      · have hk1n : ¬ (k1 = n) := fun hh => h2 ((hh.symm.trans h1))
        simp [mapSet, mapGet, h1, h2, Ne.symm h2, hk1n]
    · by_cases h2 : k1 = n
      · have hnk : ¬ (n = k) := fun hh => h1 (h2.trans hh)
        simp [mapSet, mapGet, h1, h2, hnk]
      · simp [mapSet, mapGet, h1, h2, ih]

theorem mapGet_mapDelete_self {α : Type} (l : List (String × α)) (k : String)
    (h : (l.map Prod.fst).Nodup) : mapGet (mapDelete l k) k = none := by
  induction l with
  | nil => rfl
  | cons p rest ih =>
    obtain ⟨k1, v1⟩ := p
    simp only [List.map_cons, List.nodup_cons] at h
    by_cases h1 : k1 = k
    · subst h1
      simpa [mapDelete] using mapGet_eq_none rest k1 h.1
    · simp only [mapDelete, if_neg h1, mapGet, if_neg h1]
      exact ih h.2

theorem mapGet_mapDelete_ne {α : Type} (l : List (String × α)) (k n : String)
    (h : n ≠ k) : mapGet (mapDelete l k) n = mapGet l n := by
  induction l with
  | nil => rfl
  | cons p rest ih =>
    obtain ⟨k1, v1⟩ := p
    by_cases h1 : k1 = k
    · have hk1n : ¬ (k1 = n) := fun hh => h (hh ▸ h1)
      have hkn : ¬ (k = n) := fun hh => h hh.symm
      simp [mapDelete, h1, mapGet, hk1n, hkn]
    · simp [mapDelete, h1, mapGet, ih]

theorem mapDelete_length {α : Type} (l : List (String × α)) (k : String) (v : α)
    (h : mapGet l k = some v) : (mapDelete l k).length + 1 = l.length := by
  induction l with
  | nil => simp [mapGet] at h
  | cons p rest ih =>
    obtain ⟨k1, v1⟩ := p
    by_cases h1 : k1 = k
    · simp [mapDelete, h1]
    · simp only [mapGet, if_neg h1] at h
      have := ih h
      simp only [mapDelete, if_neg h1, List.length_cons]
      omega

/-! ## Reuse-scan lemmas -/

theorem findReusable_some (name : String) (l : List (String × SSHConnection))
    (c : SSHConnection) (h : findReusable name l = some c) :
    c.server_name = name ∧ c.connected = true := by
  induction l with
  | nil => simp [findReusable] at h
  | cons p rest ih =>
    obtain ⟨k1, c1⟩ := p
    by_cases h1 : c1.server_name = name ∧ c1.connected = true
    · simp only [findReusable, if_pos h1] at h
      obtain rfl := Option.some.inj h
      exact h1
    · simp only [findReusable, if_neg h1] at h
      exact ih h

theorem findReusable_mapSet (name k : String) (l : List (String × SSHConnection))
    (c : SSHConnection) (h : findReusable name l = none)
    (hs : c.server_name = name) (hc : c.connected = true) :
    findReusable name (mapSet l k c) = some c := by
  induction l with
  | nil => simp [mapSet, findReusable, hs, hc]
  | cons p rest ih =>
    obtain ⟨k1, c1⟩ := p
    have hmatch : ¬ (c1.server_name = name ∧ c1.connected = true) := by
      intro hm
      simp [findReusable, hm] at h
    have hrest : findReusable name rest = none := by
      simpa [findReusable, hmatch] using h
    by_cases h1 : k1 = k
    · simp [mapSet, h1, findReusable, hs, hc]
    · simp [mapSet, h1, findReusable, hmatch, ih hrest]

/-! ## Connect case lemmas -/

theorem connect_resolve_none (cfg : ServerConfigData) (sn : Option String)
    (env : ConnectEnv) (st : ConnState)
    (h : resolveTarget sn (getDefaultServer cfg) = none) :
    connect cfg sn env st = (.error .noTarget, st) := by
  simp [connect, h]

theorem connect_unknown (cfg : ServerConfigData) (sn : Option String)
    (env : ConnectEnv) (st : ConnState) (name : String)
    (hr : resolveTarget sn (getDefaultServer cfg) = some name)
    (hg : getServer cfg name = none) :
    connect cfg sn env st = (.error (.unknownServer name), st) := by
  simp [connect, hr, hg]

theorem connect_reuse_hit (cfg : ServerConfigData) (sn : Option String)
    (env : ConnectEnv) (st : ConnState) (name : String)
    (cred : SSHServerConfig) (conn : SSHConnection)
    (hr : resolveTarget sn (getDefaultServer cfg) = some name)
    (hg : getServer cfg name = some cred)
    (hf : findReusable name st.connections = some conn) :
    connect cfg sn env st = (.ok conn, st) := by
  simp [connect, hr, hg, hf]

theorem connect_fresh (cfg : ServerConfigData) (sn : Option String)
    (env : ConnectEnv) (st : ConnState) (name : String) (cred : SSHServerConfig)
    (hr : resolveTarget sn (getDefaultServer cfg) = some name)
    (hg : getServer cfg name = some cred)
    (hf : findReusable name st.connections = none) :
    connect cfg sn env st =
      (if env.ready then
        (.ok (freshConnection name env st),
          { connections :=
              mapSet st.connections (freshConnection name env st).id
                (freshConnection name env st)
            connectionCounter := st.connectionCounter + 1 })
      else
        (.error .connectionError,
          { st with connectionCounter := st.connectionCounter + 1 })) := by
  by_cases hready : env.ready <;> simp [connect, hr, hg, hf, hready]

theorem connect_ok_inversion (cfg : ServerConfigData) (sn : Option String)
    (env : ConnectEnv) (st : ConnState) (s : SSHConnection) (st' : ConnState)
    (h : connect cfg sn env st = (.ok s, st')) :
    ∃ name cred,
      resolveTarget sn (getDefaultServer cfg) = some name ∧
      getServer cfg name = some cred ∧
      s.server_name = name ∧ s.connected = true ∧
      findReusable name st'.connections = some s := by
  cases hr : resolveTarget sn (getDefaultServer cfg) with
  | none =>
    rw [connect_resolve_none cfg sn env st hr] at h
    simp at h
  | some name =>
    cases hg : getServer cfg name with
    | none =>
      rw [connect_unknown cfg sn env st name hr hg] at h
      simp at h
    | some cred =>
      cases hf : findReusable name st.connections with
      | some conn =>
        rw [connect_reuse_hit cfg sn env st name cred conn hr hg hf] at h
        simp only [Prod.mk.injEq, Except.ok.injEq] at h
        obtain ⟨rfl, rfl⟩ := h
        obtain ⟨hs, hc⟩ := findReusable_some name st.connections conn hf
        exact ⟨name, cred, rfl, hg, hs, hc, hf⟩
      | none =>
        rw [connect_fresh cfg sn env st name cred hr hg hf] at h
        by_cases hready : env.ready
        · rw [if_pos hready] at h
          simp only [Prod.mk.injEq, Except.ok.injEq] at h
          obtain ⟨rfl, rfl⟩ := h
          refine ⟨name, cred, rfl, hg, rfl, rfl, ?_⟩
          exact findReusable_mapSet name (freshConnection name env st).id
            st.connections (freshConnection name env st) hf rfl rfl
        · rw [if_neg hready] at h
          simp at h

/-! ## Concrete fixtures for witnesses and counterexamples -/

def exServerA : SSHServerConfig :=
  { name := "a", host := "1.2.3.4", port := 22, username := "root"
    password := some "p", key_path := none, description := none
    proxy_command := none }

def exCfg : ServerConfigData :=
  { default_server := none, servers := [("a", exServerA)] }

def exCfgDef : ServerConfigData :=
  { default_server := some "a", servers := [("a", exServerA)] }

def exEnvReady : ConnectEnv := { now := 7, ready := true }

def exSt0 : ConnState := { connections := [], connectionCounter := 0 }

def exSession : SSHConnection :=
  { id := "conn_7_0", server_name := "a", connected := true, connected_at := 7 }

def exSt1 : ConnState :=
  { connections := [("conn_7_0", exSession)], connectionCounter := 1 }

/-! ## Claim theorems -/

/-- C1: session reuse. Whenever a `connect` call on target `n` succeeds
and returns session `s` with final registry state, that session has its
`connected` flag true, and a second `connect` call on the same target
against that state returns the very same session and leaves the state
(registry entries and id counter) completely unchanged, for every
transport environment of the second call — in particular no new
transport is opened and no new entry is registered. The proof goes
through the reuse scan: `connect` looks for a registry entry whose
`server_name` equals the resolved target with `connected` true and
returns it immediately. -/
theorem connect_reuses_live_session (cfg : ServerConfigData) (n : String)
    (env1 env2 : ConnectEnv) (st st' : ConnState) (s : SSHConnection)
    (h : connect cfg (some n) env1 st = (.ok s, st')) :
    s.connected = true ∧ connect cfg (some n) env2 st' = (.ok s, st') := by
  obtain ⟨name, cred, hr, hg, hs, hc, hf⟩ :=
    connect_ok_inversion cfg (some n) env1 st s st' h
  exact ⟨hc, connect_reuse_hit cfg (some n) env2 st' name cred s hr hg hf⟩

/-- Witness for C1 at a concrete store, with a second-call environment
whose transport would fail if it were used: the reused session comes
back untouched. -/
theorem connect_reuses_live_session_witness :
    exSession.connected = true ∧
    connect exCfg (some "a") { now := 99, ready := false } exSt1 =
      (.ok exSession, exSt1) :=
  connect_reuses_live_session exCfg "a" exEnvReady { now := 99, ready := false }
    exSt0 exSt1 exSession (by rfl)

def exEnvDone : ExecEnv :=
  { connectEnv := exEnvReady, connectMs := 3, execErr := false
    closeAt := some (500, some 0), stdoutChunks := ["ok"], stderrChunks := [] }

def exEnvLate : ExecEnv :=
  { connectEnv := exEnvReady, connectMs := 3, execErr := false
    closeAt := some (5000, some 0), stdoutChunks := [], stderrChunks := [] }

def exEnvSlowConnect : ExecEnv :=
  { connectEnv := exEnvReady, connectMs := 5000, execErr := false
    closeAt := some (500, some 0), stdoutChunks := [], stderrChunks := [] }

/-- C2: timeout behaviour of executeCommand. (i) With timeout 0 the
call never settles as a timeout, whatever the environment does. (ii)
With a positive timeout T, once the connect step has resolved and the
exec request started, if the close event never fires or fires later
than T seconds after the timer was armed, the call fails as a timeout
and returns no result. (iii) When the close event fires before the
timer deadline the call completes with the assembled result and the
pending timer has been cancelled. -/
theorem executeCommand_timeout_behavior (cfg : ServerConfigData)
    (sn cmd : String) (env : ExecEnv) (st : ConnState) (cs T : Nat) :
    (∀ t, (executeCommand cfg sn cmd env st cs 0).outcome ≠ .timedOut t) ∧
    (∀ c st1, connect cfg (some sn) env.connectEnv st = (.ok c, st1) →
      env.execErr = false → 0 < T →
      (env.closeAt = none ∨ ∃ d code, env.closeAt = some (d, code) ∧ T * 1000 < d) →
      (executeCommand cfg sn cmd env st cs T).outcome = .timedOut T) ∧
    (∀ c st1 d code, connect cfg (some sn) env.connectEnv st = (.ok c, st1) →
      env.execErr = false → env.closeAt = some (d, code) → d < T * 1000 →
      (executeCommand cfg sn cmd env st cs T).outcome =
        .completed
          { stdout := env.stdoutChunks.foldl (fun a b => a ++ b) ""
            stderr := env.stderrChunks.foldl (fun a b => a ++ b) ""
            exit_code := code
            duration := cs + env.connectMs + d - cs } ∧
      (executeCommand cfg sn cmd env st cs T).timerAfter = none) := by
  refine ⟨?_, ?_, ?_⟩
  · intro t
    rcases hc : connect cfg (some sn) env.connectEnv st with ⟨res, st1⟩
    cases res with
    | error e => simp [executeCommand, hc]
    | ok c =>
      cases henv : env.execErr with
      | true => simp [executeCommand, hc, henv]
      | false =>
        cases hclose : env.closeAt with
        | none => simp [executeCommand, hc, henv, hclose]
        | some p =>
          obtain ⟨d, code⟩ := p
          simp [executeCommand, hc, henv, hclose]
  · intro c st1 hc he hT hclose
    rcases hclose with hclose | ⟨d, code, hclose, hlt⟩
    · simp [executeCommand, hc, he, hclose, hT]
    · simp [executeCommand, hc, he, hclose, hT, Nat.le_of_lt hlt]
  · intro c st1 d code hc he hclose hlt
    have hnle : ¬ T * 1000 ≤ d := not_le.mpr hlt
    constructor
    · simp [executeCommand, hc, he, hclose, hnle]
    · by_cases hT : 0 < T <;> simp [executeCommand, hc, he, hclose, hnle, hT, cleanup]

/-- Witness for C2: a concrete store and registry. The close event at
5000 ms after arming exceeds the 2-second window (timeout), while the
one at 500 ms beats it (completion with the timer cleared); timeout 0
never produces a timeout outcome. -/
theorem executeCommand_timeout_behavior_witness :
    (executeCommand exCfg "a" "ls" exEnvLate exSt0 10 0).outcome ≠ .timedOut 0 ∧
    (executeCommand exCfg "a" "ls" exEnvLate exSt0 10 2).outcome = .timedOut 2 ∧
    ((executeCommand exCfg "a" "ls" exEnvDone exSt0 10 2).outcome =
        .completed { stdout := "ok", stderr := "", exit_code := some 0, duration := 503 } ∧
      (executeCommand exCfg "a" "ls" exEnvDone exSt0 10 2).timerAfter = none) := by
  refine ⟨(executeCommand_timeout_behavior exCfg "a" "ls" exEnvLate exSt0 10 0).1 0,
    (executeCommand_timeout_behavior exCfg "a" "ls" exEnvLate exSt0 10 2).2.1
      exSession exSt1 (by rfl) (by rfl) (by decide)
      (Or.inr ⟨5000, some 0, rfl, by decide⟩), ?_⟩
  have h := (executeCommand_timeout_behavior exCfg "a" "ls" exEnvDone exSt0 10 2).2.2
    exSession exSt1 500 (some 0) (by rfl) rfl rfl (by decide)
  exact ⟨h.1.trans (by decide), h.2⟩

/-- C3 counterexample: with timeout 1 second, a call whose connect step
takes 5000 ms and whose close event arrives 500 ms after the timer is
armed completes normally with duration 5500 ms, although connect time
plus exec time (5500 ms) far exceeds the 1-second timeout. The claimed
call-start origin of the window is therefore false: the code arms the
timer only after the connect step resolves. -/
theorem executeCommand_window_counterexample :
    (executeCommand exCfg "a" "ls" exEnvSlowConnect exSt0 0 1).outcome =
      .completed { stdout := "", stderr := "", exit_code := some 0, duration := 5500 } ∧
    1 * 1000 < 5000 + 500 := by
  constructor
  · rfl
  · decide

/-- C3 amended: the T-second window is measured from the instant the
timer is armed, which happens only after the connect step has resolved
— not from call start. For every connect duration cms, even one that
alone exceeds the whole window, the call completes when the close event
arrives within T seconds of arming and times out exactly when it
arrives later; the connect duration enters only the reported duration
value, never the timeout decision. -/
theorem executeCommand_window_starts_after_connect
    (cfg : ServerConfigData) (sn cmd : String) (cEnv : ConnectEnv)
    (cms T d : Nat) (code : Option Int) (st : ConnState) (cs : Nat)
    (sc ec : List String) (c : SSHConnection) (st1 : ConnState)
    (hc : connect cfg (some sn) cEnv st = (.ok c, st1))
    (hT : 0 < T) (_hbig : T * 1000 < cms) :
    (d < T * 1000 →
      (executeCommand cfg sn cmd
        { connectEnv := cEnv, connectMs := cms, execErr := false
          closeAt := some (d, code), stdoutChunks := sc, stderrChunks := ec }
        st cs T).outcome =
        .completed
          { stdout := sc.foldl (fun a b => a ++ b) ""
            stderr := ec.foldl (fun a b => a ++ b) ""
            exit_code := code
            duration := cs + cms + d - cs }) ∧
    (T * 1000 < d →
      (executeCommand cfg sn cmd
        { connectEnv := cEnv, connectMs := cms, execErr := false
          closeAt := some (d, code), stdoutChunks := sc, stderrChunks := ec }
        st cs T).outcome = .timedOut T) := by
  constructor
  · intro hd
    have hcond : ¬ (0 < T ∧ T * 1000 ≤ d) := by
      rintro ⟨h1, h2⟩
      omega
    simp [executeCommand, hc, hcond]
  · intro hd
    simp [executeCommand, hc, hT, Nat.le_of_lt hd]

/-- Witness for the amended C3: connect takes 5000 ms against a
1-second timeout, yet the call completes when the close event arrives
500 ms after arming and times out when it arrives 2000 ms after
arming. -/
theorem executeCommand_window_starts_after_connect_witness :
    (executeCommand exCfg "a" "ls"
      { connectEnv := exEnvReady, connectMs := 5000, execErr := false
        closeAt := some (500, some 0), stdoutChunks := [], stderrChunks := [] }
      exSt0 0 1).outcome =
      .completed { stdout := "", stderr := "", exit_code := some 0, duration := 0 + 5000 + 500 - 0 } ∧
    (executeCommand exCfg "a" "ls"
      { connectEnv := exEnvReady, connectMs := 5000, execErr := false
        closeAt := some (2000, some 0), stdoutChunks := [], stderrChunks := [] }
      exSt0 0 1).outcome = .timedOut 1 :=
  ⟨(executeCommand_window_starts_after_connect exCfg "a" "ls" exEnvReady
      5000 1 500 (some 0) exSt0 0 [] [] exSession exSt1 (by rfl) (by decide)
      (by decide)).1 (by decide),
    (executeCommand_window_starts_after_connect exCfg "a" "ls" exEnvReady
      5000 1 2000 (some 0) exSt0 0 [] [] exSession exSt1 (by rfl) (by decide)
      (by decide)).2 (by decide)⟩

/-- C4 counterexample: with a default server configured, a call with
BOTH the target name and the command string empty succeeds and runs on
the default server instead of failing: the empty target is silently
substituted by the default (JS falsiness of the empty string in
`server_name || getDefaultServer()`) and the empty command is passed to
the remote side unchecked. -/
theorem executeCommand_empty_args_counterexample :
    (executeCommand exCfgDef "" "" exEnvDone exSt0 0 30).outcome =
      .completed { stdout := "ok", stderr := "", exit_code := some 0, duration := 503 } := by
  decide

/-- C4 amended: neither argument is validated for non-emptiness. An
empty target string is treated exactly like an absent one — `connect`
behaves identically on `some ""` and `none`, so it falls back to the
configured default server and fails with `noTarget` only when no
default exists; the command string is never inspected by the manager,
so an empty command is executed like any other (see the
counterexample). -/
theorem connect_empty_target_like_absent (cfg : ServerConfigData)
    (env : ConnectEnv) (st : ConnState) :
    connect cfg (some "") env st = connect cfg none env st := by
  rfl

/-- C5 counterexample: the empty name has no credential in the store,
yet `connect` on it does not fail with `unknownServer` — the empty
string is falsy, so the call falls back to the configured default and
succeeds. -/
theorem connect_unknown_server_counterexample :
    getServer exCfgDef "" = none ∧
    connect exCfgDef (some "") exEnvReady exSt0 = (.ok exSession, exSt1) := by
  constructor
  · rfl
  · rfl

/-- C5 amended: failure modes of connect. (i) With no target and no
configured default the call fails with `noTarget`. (ii) Every non-empty
name without a matching credential fails with `unknownServer`; the
empty name is instead treated as absent (see the counterexample). (iii)
Every failing connect call — target resolution, credential lookup or
transport/authentication failure — leaves the connection registry
untouched: the failed attempt is never registered. -/
theorem connect_failure_modes (cfg : ServerConfigData) (env : ConnectEnv)
    (st : ConnState) :
    (getDefaultServer cfg = none →
      connect cfg none env st = (.error .noTarget, st)) ∧
    (∀ n, n ≠ "" → getServer cfg n = none →
      connect cfg (some n) env st = (.error (.unknownServer n), st)) ∧
    (∀ sn e st', connect cfg sn env st = (.error e, st') →
      st'.connections = st.connections) := by
  refine ⟨?_, ?_, ?_⟩
  · intro hd
    exact connect_resolve_none cfg none env st (by simp [resolveTarget, jsFalsy, hd])
  · intro n hn hg
    exact connect_unknown cfg (some n) env st n
      (by simp [resolveTarget, jsFalsy, hn]) hg
  · intro sn e st' h
    cases hr : resolveTarget sn (getDefaultServer cfg) with
    | none =>
      rw [connect_resolve_none cfg sn env st hr] at h
      injection h with h1 h2
      rw [← h2]
    | some name =>
      cases hg : getServer cfg name with
      | none =>
        rw [connect_unknown cfg sn env st name hr hg] at h
        injection h with h1 h2
        rw [← h2]
      | some cred =>
        cases hf : findReusable name st.connections with
        | some conn =>
          rw [connect_reuse_hit cfg sn env st name cred conn hr hg hf] at h
          simp at h
        | none =>
          rw [connect_fresh cfg sn env st name cred hr hg hf] at h
          by_cases hready : env.ready
          · rw [if_pos hready] at h
            simp at h
          · rw [if_neg hready] at h
            injection h with h1 h2
            rw [← h2]

/-- Witness for the amended C5: no-target failure, unknown-server
failure for a non-empty absent name, and a transport failure whose
resulting state keeps the registry (the id counter advanced, the
registry did not). -/
theorem connect_failure_modes_witness :
    connect exCfg none exEnvReady exSt0 = (.error .noTarget, exSt0) ∧
    connect exCfg (some "b") exEnvReady exSt0 =
      (.error (.unknownServer "b"), exSt0) ∧
    ({ connections := [], connectionCounter := 1 } : ConnState).connections =
      exSt0.connections :=
  ⟨(connect_failure_modes exCfg exEnvReady exSt0).1 rfl,
    (connect_failure_modes exCfg exEnvReady exSt0).2.1 "b" (by decide) rfl,
    (connect_failure_modes exCfg { now := 7, ready := false } exSt0).2.2
      (some "a") .connectionError { connections := [], connectionCounter := 1 }
      (by rfl)⟩

def exSessionB : SSHConnection :=
  { id := "conn_9_1", server_name := "b", connected := true, connected_at := 9 }

def exSt2 : ConnState :=
  { connections := [("conn_7_0", exSession), ("conn_9_1", exSessionB)]
    connectionCounter := 2 }

/-- C6: disconnect semantics. With a registered id: terminate exactly
that session, remove exactly its entry (the key is gone, the length
drops by one, every other key is untouched) and report count 1. With an
unknown id: report count 0, terminate nothing, change nothing. With no
id: terminate every registered session regardless of target name,
report their number, and a subsequent getStatus reports total 0. The
key-uniqueness hypothesis is the JS Map invariant. -/
theorem disconnect_semantics (st : ConnState)
    (hnodup : (st.connections.map Prod.fst).Nodup) :
    (∀ cid conn, mapGet st.connections cid = some conn →
      disconnect st (some cid) =
        (1, [conn.id], { st with connections := mapDelete st.connections cid }) ∧
      mapGet (mapDelete st.connections cid) cid = none ∧
      (mapDelete st.connections cid).length + 1 = st.connections.length ∧
      (∀ k, k ≠ cid →
        mapGet (mapDelete st.connections cid) k = mapGet st.connections k)) ∧
    (∀ cid, mapGet st.connections cid = none →
      disconnect st (some cid) = (0, [], st)) ∧
    (disconnect st none =
      (st.connections.length, st.connections.map (fun p => p.2.id),
        { st with connections := [] }) ∧
      (getStatus { st with connections := [] }).2 = 0) := by
  refine ⟨?_, ?_, rfl, rfl⟩
  · intro cid conn h
    exact ⟨by simp [disconnect, h],
      mapGet_mapDelete_self st.connections cid hnodup,
      mapDelete_length st.connections cid conn h,
      fun k hk => mapGet_mapDelete_ne st.connections cid k hk⟩
  · intro cid h
    simp [disconnect, h]

/-- Witness for C6 on a two-session registry: removing a present id,
the no-op on an unknown id, and the bulk disconnect emptying the
registry. -/
theorem disconnect_semantics_witness :
    disconnect exSt2 (some "conn_7_0") =
      (1, ["conn_7_0"],
        { connections := [("conn_9_1", exSessionB)], connectionCounter := 2 }) ∧
    disconnect exSt2 (some "nope") = (0, [], exSt2) ∧
    disconnect exSt2 none =
      (2, ["conn_7_0", "conn_9_1"],
        { connections := [], connectionCounter := 2 }) := by
  have h := disconnect_semantics exSt2 (by decide)
  exact ⟨(h.1 "conn_7_0" exSession (by rfl)).1, h.2.1 "nope" (by rfl), h.2.2.1⟩

/-! ## Store state-shape lemmas -/

theorem addServer_snd (st : ServerConfigData) (c : AddServerInput) (saveOk : Bool) :
    (addServer st c saveOk).2 =
      if (mapGet st.servers c.name).isSome then st
      else { st with servers := mapSet st.servers c.name (mkServerConfig c) } := by
  by_cases hdup : (mapGet st.servers c.name).isSome <;>
    by_cases hs : saveOk <;> simp [addServer, hdup, hs]

theorem deleteServer_snd (st : ServerConfigData) (name : String) (saveOk : Bool) :
    (deleteServer st name saveOk).2 =
      if (mapGet st.servers name).isSome then
        if st.default_server = some name then
          { default_server := none, servers := mapDelete st.servers name }
        else { st with servers := mapDelete st.servers name }
      else st := by
  by_cases h1 : (mapGet st.servers name).isSome <;>
    by_cases h2 : st.default_server = some name <;>
      by_cases hs : saveOk <;> simp [deleteServer, h1, h2, hs]

theorem setDefaultServer_snd (st : ServerConfigData) (name : String) (saveOk : Bool) :
    (setDefaultServer st name saveOk).2 =
      if (mapGet st.servers name).isSome then
        { st with default_server := some name }
      else st := by
  by_cases h1 : (mapGet st.servers name).isSome <;>
    by_cases hs : saveOk <;> simp [setDefaultServer, h1, hs]

theorem storeInv_applyOp (st : ServerConfigData) (op : StoreOp)
    (h : storeInv st) : storeInv (applyOp st op) := by
  cases op with
  | add c saveOk =>
    intro n hn
    rw [applyOp, addServer_snd] at hn ⊢
    by_cases hdup : (mapGet st.servers c.name).isSome
    · rw [if_pos hdup] at hn ⊢
      exact h n hn
    · rw [if_neg hdup] at hn ⊢
      simp only at hn
      rw [mapGet_mapSet]
      by_cases hnc : n = c.name
      · simp [hnc]
      · simp only [if_neg hnc]
        exact h n hn
  | del name saveOk =>
    intro n hn
    rw [applyOp, deleteServer_snd] at hn ⊢
    by_cases h1 : (mapGet st.servers name).isSome
    · by_cases h2 : st.default_server = some name
      · rw [if_pos h1, if_pos h2] at hn
        simp at hn
      · rw [if_pos h1, if_neg h2] at hn ⊢
        have hnn : n ≠ name := by
          intro hh
          exact h2 (hh ▸ hn)
        have hmem : (mapGet (mapDelete st.servers name) n).isSome = true := by
          rw [mapGet_mapDelete_ne st.servers name n hnn]
          exact h n hn
        exact hmem
    · rw [if_neg h1] at hn ⊢
      exact h n hn
  | setDef name saveOk =>
    intro n hn
    rw [applyOp, setDefaultServer_snd] at hn ⊢
    by_cases h1 : (mapGet st.servers name).isSome
    · rw [if_pos h1] at hn ⊢
      simp only [Option.some.injEq] at hn
      subst hn
      exact h1
    · rw [if_neg h1] at hn ⊢
      exact h n hn

theorem storeInv_applyOps (ops : List StoreOp) (st : ServerConfigData)
    (h : storeInv st) : storeInv (applyOps st ops) := by
  induction ops generalizing st with
  | nil => exact h
  | cons op rest ih => exact ih (applyOp st op) (storeInv_applyOp st op h)

def exAddA : AddServerInput :=
  { name := "a", host := "1.2.3.4", port := none, username := "root"
    password := some "p", key_path := none, description := none
    proxy_command := none }

def exAddB : AddServerInput :=
  { name := "b", host := "h2", port := some 2222, username := "u"
    password := none, key_path := some "/k", description := none
    proxy_command := none }

def exAddC : AddServerInput :=
  { name := "c", host := "h3", port := some 0, username := "w"
    password := none, key_path := none, description := some "d"
    proxy_command := none }

def exStoreAB : ServerConfigData :=
  { default_server := some "a"
    servers := [("a", mkServerConfig exAddA), ("b", mkServerConfig exAddB)] }

/-- C7: default-pointer invariant. Starting from the empty store, every
sequence of add/delete/set-default operations (with the persist write
succeeding or failing) keeps the invariant that a set default pointer
names an existing credential; set-default on a missing name fails with
`serverNotFound` and changes nothing; deleting the credential currently
set as default clears the pointer, and deleting any other credential
leaves the pointer untouched. -/
theorem default_pointer_invariant :
    (∀ ops, storeInv (applyOps emptyStore ops)) ∧
    (∀ st name saveOk, mapGet st.servers name = none →
      setDefaultServer st name saveOk = (.error (.serverNotFound name), st)) ∧
    (∀ st name saveOk, (mapGet st.servers name).isSome = true →
      st.default_server = some name →
      (deleteServer st name saveOk).2.default_server = none) ∧
    (∀ st name m saveOk, (mapGet st.servers name).isSome = true →
      st.default_server = some m → m ≠ name →
      (deleteServer st name saveOk).2.default_server = some m) := by
  refine ⟨?_, ?_, ?_, ?_⟩
  · intro ops
    refine storeInv_applyOps ops emptyStore ?_
    intro n hn
    cases hn
  · intro st name saveOk h
    simp [setDefaultServer, h]
  · intro st name saveOk h1 h2
    rw [deleteServer_snd, if_pos h1, if_pos h2]
  · intro st name m saveOk h1 h2 hm
    have h2' : ¬ (st.default_server = some name) := by
      rw [h2]
      simp [hm]
    rw [deleteServer_snd, if_pos h1, if_neg h2']
    exact h2

/-- Witness for C7: a concrete operation sequence from the empty store,
a rejected set-default, and the two delete cases against a two-entry
store whose default is the first entry. -/
theorem default_pointer_invariant_witness :
    storeInv (applyOps emptyStore
      [.add exAddA true, .setDef "a" true, .add exAddB false]) ∧
    setDefaultServer exStoreAB "zzz" true =
      (.error (.serverNotFound "zzz"), exStoreAB) ∧
    (deleteServer exStoreAB "a" true).2.default_server = none ∧
    (deleteServer exStoreAB "b" true).2.default_server = some "a" :=
  ⟨default_pointer_invariant.1 _,
    default_pointer_invariant.2.1 exStoreAB "zzz" true (by rfl),
    default_pointer_invariant.2.2.1 exStoreAB "a" true (by rfl) rfl,
    default_pointer_invariant.2.2.2 exStoreAB "b" "a" true (by rfl) rfl
      (by decide)⟩

/-- C8: duplicate add is rejected atomically. For every store state and
every input whose name is already present, addServer fails with
`duplicateServer` and returns the store completely unchanged — entries
(so the existing entry keeps every attribute value) and default pointer
alike; the duplicate check runs before any mutation and before the
persist write. -/
theorem addServer_duplicate_rejected (st : ServerConfigData)
    (c : AddServerInput) (saveOk : Bool)
    (h : (mapGet st.servers c.name).isSome = true) :
    addServer st c saveOk = (.error (.duplicateServer c.name), st) := by
  simp [addServer, h]

/-- Witness for C8: re-adding name a over a store that already holds it
(under either fate of the persist write). -/
theorem addServer_duplicate_rejected_witness :
    addServer exStoreAB exAddA false =
      (.error (.duplicateServer "a"), exStoreAB) :=
  addServer_duplicate_rejected exStoreAB exAddA false (by rfl)

/-- C9: persistence failures are surfaced. For each mutating store
operation whose preconditions hold (so the persist write is actually
attempted), a failing write makes the operation return the rethrown
persistence error instead of its success value. -/
theorem persistence_failure_surfaced :
    (∀ st c, mapGet st.servers c.name = none →
      (addServer st c false).1 = .error .persistence) ∧
    (∀ st name, (mapGet st.servers name).isSome = true →
      (deleteServer st name false).1 = .error .persistence) ∧
    (∀ st name, (mapGet st.servers name).isSome = true →
      (setDefaultServer st name false).1 = .error .persistence) := by
  refine ⟨?_, ?_, ?_⟩
  · intro st c h
    simp [addServer, h]
  · intro st name h
    simp [deleteServer, h]
  · intro st name h
    simp [setDefaultServer, h]

/-- Witness for C9: a fresh add, a delete of an existing entry and a
set-default on an existing entry, each with the write failing. -/
theorem persistence_failure_surfaced_witness :
    (addServer exStoreAB exAddC false).1 = .error .persistence ∧
    (deleteServer exStoreAB "a" false).1 = .error .persistence ∧
    (setDefaultServer exStoreAB "b" false).1 = .error .persistence :=
  ⟨persistence_failure_surfaced.1 exStoreAB exAddC (by rfl),
    persistence_failure_surfaced.2.1 exStoreAB "a" (by rfl),
    persistence_failure_surfaced.2.2 exStoreAB "b" (by rfl)⟩

/-- C10 (implicit): mutating store operations apply their in-memory
change before attempting the persist write, and a failed write does not
roll it back. After a failed addServer the new entry is still readable
via getServer; after a failed deleteServer the entry is already gone;
after a failed setDefaultServer the pointer already holds the new name
— even though each operation reported the persistence failure. -/
theorem failed_save_keeps_memory_change :
    (∀ st c, mapGet st.servers c.name = none →
      (addServer st c false).1 = .error .persistence ∧
      getServer (addServer st c false).2 c.name = some (mkServerConfig c)) ∧
    (∀ st name, (st.servers.map Prod.fst).Nodup →
      (mapGet st.servers name).isSome = true →
      (deleteServer st name false).1 = .error .persistence ∧
      getServer (deleteServer st name false).2 name = none) ∧
    (∀ st name, (mapGet st.servers name).isSome = true →
      (setDefaultServer st name false).2.default_server = some name) := by
  refine ⟨?_, ?_, ?_⟩
  · intro st c h
    refine ⟨by simp [addServer, h], ?_⟩
    have hget : getServer
        { st with servers := mapSet st.servers c.name (mkServerConfig c) }
        c.name = some (mkServerConfig c) := by
      show mapGet (mapSet st.servers c.name (mkServerConfig c)) c.name = _
      rw [mapGet_mapSet]
      simp
    rw [addServer_snd, if_neg (by simp [h])]
    exact hget
  · intro st name hnodup h
    refine ⟨by simp [deleteServer, h], ?_⟩
    have hget : mapGet (mapDelete st.servers name) name = none :=
      mapGet_mapDelete_self st.servers name hnodup
    rw [deleteServer_snd, if_pos h]
    by_cases h2 : st.default_server = some name
    · rw [if_pos h2]
      exact hget
    · rw [if_neg h2]
      exact hget
  · intro st name h
    rw [setDefaultServer_snd, if_pos h]

/-- Witness for C10: the three failed-save conjuncts at a concrete
two-entry store. -/
theorem failed_save_keeps_memory_change_witness :
    ((addServer exStoreAB exAddC false).1 = .error .persistence ∧
      getServer (addServer exStoreAB exAddC false).2 "c" =
        some (mkServerConfig exAddC)) ∧
    ((deleteServer exStoreAB "a" false).1 = .error .persistence ∧
      getServer (deleteServer exStoreAB "a" false).2 "a" = none) ∧
    (setDefaultServer exStoreAB "b" false).2.default_server = some "b" :=
  ⟨failed_save_keeps_memory_change.1 exStoreAB exAddC (by rfl),
    failed_save_keeps_memory_change.2.1 exStoreAB "a" (by decide) (by rfl),
    failed_save_keeps_memory_change.2.2 exStoreAB "b" (by rfl)⟩

end SshMcp
